import Mathlib

/-!
Verification of the `termdialog` terminal-embedding dialog component.

The embedding models the dialog state machine of
`internal/tui/components/dialogs/termdialog` (package `termdialog`):
window-resize geometry, the fullscreen/windowed layout decision, the
start-vs-resize branching toward the embedded terminal, mouse/cursor
coordinate transforms, and the close protocol.

Machine integers are modelled as `Int` (Go `int` arithmetic; no claim
involves values anywhere near overflow).  Go's truncating integer
division is `Int.tdiv`.  The 85% windowed-size computation
`int(float64(x) * 0.85)` is modelled as `(x * 85).tdiv 100`; at every
concrete input appearing in the claims (x ∈ {15, 60, 120, 200}) the
IEEE-754 double computation rounds to exactly the same integer, and the
truncation toward zero of Go's float-to-int conversion matches `tdiv`.

The embedded terminal itself lives in `internal/terminal`, outside the
observed sources; it is consumed only through the capability contract of
the spec (§6).  Its model below records which capability calls the
dialog makes, so claims about call sequences are claims about the
dialog's code.
-/

/-- Height of the dialog header (title + padding).  Source: `headerHeight`. -/
def headerHeight : Int := 2

/-- Width below which the dialog goes fullscreen.
Source: `fullscreenWidthBreakpoint`. -/
def fullscreenWidthBreakpoint : Int := 120

/-- A capability call the dialog issues to the embedded terminal. -/
inductive TermCall where
  | resize (w h : Int)
  | start
  | close
  deriving DecidableEq, Repr

/-- A command the dialog hands back to the host event loop.
`reportError` is `util.ReportError`, `waitCmd`/`refreshCmd` are
`term.WaitCmd()`/`term.RefreshCmd()`, `batch` is `tea.Batch`, and
`follow` stands for an opaque follow-up command produced by a
completion callback. -/
inductive Cmd where
  | reportError
  | waitCmd
  | refreshCmd
  | batch (c₁ c₂ : Cmd)
  | follow (n : Nat)
  deriving DecidableEq, Repr

/-- Modelled from the spec: the embedded-terminal capability contract (§6)
of `internal/terminal` (not among the observed sources).  `started`
mirrors `Started()`; a successful `Start()` moves it to `true` and
nothing moves it back (§3 lifecycle, states Started after start).
`resizeOk`, `startOk`, `closeOk` abstract whether `Resize`, `Start`,
`Close` succeed when called. -/
structure Terminal where
  started : Bool
  resizeOk : Bool
  startOk : Bool
  closeOk : Bool
  deriving DecidableEq, Repr

/-- The dialog state.  Source: struct `Dialog`. -/
structure Dialog where
  id : String
  title : String
  loadingMsg : String
  term : Terminal
  onClose : Option (Unit → Option Cmd)
  wWidth : Int
  wHeight : Int
  width : Int
  height : Int
  fullscreen : Bool

/-- Source: `New`.  Defaults the loading message to "Starting...". -/
def New (id title loadingMsg : String) (term : Terminal)
    (onClose : Option (Unit → Option Cmd)) : Dialog :=
  { id := id, title := title,
    loadingMsg := if loadingMsg = "" then "Starting..." else loadingMsg,
    term := term, onClose := onClose,
    wWidth := 0, wHeight := 0, width := 0, height := 0, fullscreen := false }

/-- The `int(float64(x) * 0.85)` computation of `handleResize`, modelled as
exact integer arithmetic with truncation toward zero (see the header
comment for the correspondence with the IEEE-754 computation). -/
def pct85 (x : Int) : Int := (x * 85).tdiv 100

/-- Geometry part of `handleResize` (source lines 103–129): store host
bounds, decide the layout mode, compute outer bounds (full host bounds
if fullscreen, else 85% capped at `width−6`/`height−4`), derive inner
bounds by subtracting the 2-cell border, floored at 40×10. -/
def Dialog.resizeGeometry (d : Dialog) (msgWidth msgHeight : Int) : Dialog :=
  let fs : Bool := msgWidth < fullscreenWidthBreakpoint
  let outerWidth : Int :=
    if fs then msgWidth
    else
      let ow := pct85 msgWidth
      if ow > msgWidth - 6 then msgWidth - 6 else ow
  let outerHeight : Int :=
    if fs then msgHeight
    else
      let oh := pct85 msgHeight
      if oh > msgHeight - 4 then msgHeight - 4 else oh
  { d with
    wWidth := msgWidth, wHeight := msgHeight, fullscreen := fs,
    width := max (outerWidth - 2) 40,
    height := max (outerHeight - 2) 10 }

/-- Terminal height derived in `handleResize` (source line 132):
the inner height minus the header, floored at 5. -/
def termHeightOf (d : Dialog) : Int := max (d.height - headerHeight) 5

/-- Outcome of one `handleResize` cycle: the updated dialog, the
capability calls issued to the terminal in order, and the command
returned to the host (`none` is Go's `nil`). -/
structure ResizeResult where
  dialog : Dialog
  calls : List TermCall
  cmd : Option Cmd

/-- Source: `Dialog.handleResize` (lines 102–150).  After the geometry
update, if the terminal is not started and both dimensions are positive:
resize it, then start it; an error from either step returns a
`reportError` command and stops the cycle; on success the wait-for-exit
and refresh tasks are batched.  Otherwise the terminal is only resized,
reporting a resize error. -/
def Dialog.handleResize (d : Dialog) (msgWidth msgHeight : Int) : ResizeResult :=
  let d := d.resizeGeometry msgWidth msgHeight
  let termHeight := termHeightOf d
  if d.term.started = false ∧ 0 < d.width ∧ 0 < termHeight then
    if d.term.resizeOk = false then
      { dialog := d, calls := [.resize d.width termHeight],
        cmd := some .reportError }
    else if d.term.startOk = false then
      { dialog := d, calls := [.resize d.width termHeight, .start],
        cmd := some .reportError }
    else
      { dialog := { d with term := { d.term with started := true } },
        calls := [.resize d.width termHeight, .start],
        cmd := some (.batch .waitCmd .refreshCmd) }
  else
    if d.term.resizeOk = false then
      { dialog := d, calls := [.resize d.width termHeight],
        cmd := some .reportError }
    else
      { dialog := d, calls := [.resize d.width termHeight], cmd := none }

/-- Source: `Dialog.Position` (lines 206–218).  Fullscreen gives `(0,0)`;
windowed centers the bordered box (inner size plus 2) in the host
bounds, clamped at 0.  Returned as `(row, col)`. -/
def Dialog.Position (d : Dialog) : Int × Int :=
  if d.fullscreen then (0, 0)
  else
    let dialogWidth := d.width + 2
    let dialogHeight := d.height + 2
    (max ((d.wHeight - dialogHeight).tdiv 2) 0,
     max ((d.wWidth - dialogWidth).tdiv 2) 0)

/-- The mouse-coordinate adjustment of `Dialog.handleMouse`
(source lines 164–167): screen space to terminal-local space. -/
def Dialog.adjustMouse (d : Dialog) (x y : Int) : Int × Int :=
  let rc := d.Position
  (x - rc.2 - 1, y - rc.1 - 1 - headerHeight)

/-- The cursor screen mapping of `Dialog.Cursor`
(source lines 233–236): terminal-local space to screen space. -/
def Dialog.cursorScreen (d : Dialog) (x y : Int) : Int × Int :=
  let rc := d.Position
  (x + rc.2 + 1, y + rc.1 + 1 + headerHeight)

/-- Source: `Dialog.Cursor` (lines 226–241), reduced to its geometric
content: `none` when either local cursor coordinate is negative, else
the screen-mapped position. -/
def Dialog.Cursor (d : Dialog) (x y : Int) : Option (Int × Int) :=
  if x < 0 ∨ y < 0 then none
  else some (d.cursorScreen x y)

/-- Outcome of `Close`: the capability calls made and the follow-up
command returned (`none` is Go's `nil`). -/
structure CloseResult where
  calls : List TermCall
  cmd : Option Cmd

/-- Source: `Dialog.Close` (lines 243–251).  Always calls the terminal's
`Close`, discarding its error, then returns the completion callback's
result when one was supplied. -/
def Dialog.Close (d : Dialog) : CloseResult :=
  { calls := [.close],
    cmd := match d.onClose with
           | some f => f ()
           | none => none }

/-- Run a sequence of window-size events through the dialog, collecting
every terminal capability call in order. -/
def processResizes (d : Dialog) : List (Int × Int) → Dialog × List TermCall
  | [] => (d, [])
  | (w, h) :: rest =>
    let r := d.handleResize w h
    let rec' := processResizes r.dialog rest
    (rec'.1, r.calls ++ rec'.2)

/-! ### Helper lemmas -/

lemma resizeGeometry_term (d : Dialog) (w h : Int) :
    (d.resizeGeometry w h).term = d.term := rfl

lemma resizeGeometry_wWidth (d : Dialog) (w h : Int) :
    (d.resizeGeometry w h).wWidth = w := rfl

lemma resizeGeometry_wHeight (d : Dialog) (w h : Int) :
    (d.resizeGeometry w h).wHeight = h := rfl

lemma resizeGeometry_fullscreen (d : Dialog) (w h : Int) :
    (d.resizeGeometry w h).fullscreen = decide (w < 120) := rfl

lemma resizeGeometry_width_ge (d : Dialog) (w h : Int) :
    40 ≤ (d.resizeGeometry w h).width := by
  simp only [Dialog.resizeGeometry]
  exact le_max_right _ _

lemma resizeGeometry_height_ge (d : Dialog) (w h : Int) :
    10 ≤ (d.resizeGeometry w h).height := by
  simp only [Dialog.resizeGeometry]
  exact le_max_right _ _

lemma resizeGeometry_width_pos (d : Dialog) (w h : Int) :
    0 < (d.resizeGeometry w h).width :=
  lt_of_lt_of_le (by norm_num) (resizeGeometry_width_ge d w h)

lemma termHeightOf_ge (d : Dialog) : 5 ≤ termHeightOf d := le_max_right _ _

lemma termHeightOf_pos (d : Dialog) : 0 < termHeightOf d :=
  lt_of_lt_of_le (by norm_num) (termHeightOf_ge d)

/-- Fully resolved form of `handleResize`: the geometry floors make the
positivity guard equivalent to "not yet started". -/
lemma handleResize_eq (d : Dialog) (w h : Int) :
    d.handleResize w h =
      if d.term.started = false then
        if d.term.resizeOk = false then
          { dialog := d.resizeGeometry w h,
            calls := [.resize (d.resizeGeometry w h).width
                        (termHeightOf (d.resizeGeometry w h))],
            cmd := some .reportError }
        else if d.term.startOk = false then
          { dialog := d.resizeGeometry w h,
            calls := [.resize (d.resizeGeometry w h).width
                        (termHeightOf (d.resizeGeometry w h)), .start],
            cmd := some .reportError }
        else
          { dialog := { d.resizeGeometry w h with
                        term := { d.term with started := true } },
            calls := [.resize (d.resizeGeometry w h).width
                        (termHeightOf (d.resizeGeometry w h)), .start],
            cmd := some (.batch .waitCmd .refreshCmd) }
      else
        if d.term.resizeOk = false then
          { dialog := d.resizeGeometry w h,
            calls := [.resize (d.resizeGeometry w h).width
                        (termHeightOf (d.resizeGeometry w h))],
            cmd := some .reportError }
        else
          { dialog := d.resizeGeometry w h,
            calls := [.resize (d.resizeGeometry w h).width
                        (termHeightOf (d.resizeGeometry w h))],
            cmd := none } := by
  have hw := resizeGeometry_width_pos d w h
  have hth := termHeightOf_pos (d.resizeGeometry w h)
  simp only [Dialog.handleResize, resizeGeometry_term, hw, hth, and_true]

lemma handleResize_dialog_width (d : Dialog) (w h : Int) :
    (d.handleResize w h).dialog.width = (d.resizeGeometry w h).width := by
  rw [handleResize_eq]
  split_ifs <;> rfl

lemma handleResize_dialog_height (d : Dialog) (w h : Int) :
    (d.handleResize w h).dialog.height = (d.resizeGeometry w h).height := by
  rw [handleResize_eq]
  split_ifs <;> rfl

lemma handleResize_dialog_fullscreen (d : Dialog) (w h : Int) :
    (d.handleResize w h).dialog.fullscreen = decide (w < 120) := by
  rw [handleResize_eq]
  split_ifs <;> rfl

lemma handleResize_started (d : Dialog) (w h : Int)
    (hs : d.term.started = true) :
    d.handleResize w h =
      if d.term.resizeOk = false then
        { dialog := d.resizeGeometry w h,
          calls := [.resize (d.resizeGeometry w h).width
                      (termHeightOf (d.resizeGeometry w h))],
          cmd := some .reportError }
      else
        { dialog := d.resizeGeometry w h,
          calls := [.resize (d.resizeGeometry w h).width
                      (termHeightOf (d.resizeGeometry w h))],
          cmd := none } := by
  rw [handleResize_eq, if_neg (by simp [hs])]

lemma handleResize_started_calls (d : Dialog) (w h : Int)
    (hs : d.term.started = true) :
    (d.handleResize w h).calls =
      [.resize (d.resizeGeometry w h).width
         (termHeightOf (d.resizeGeometry w h))] := by
  rw [handleResize_started d w h hs]
  split_ifs <;> rfl

lemma handleResize_started_term (d : Dialog) (w h : Int)
    (hs : d.term.started = true) :
    (d.handleResize w h).dialog.term = d.term := by
  rw [handleResize_started d w h hs]
  split_ifs <;> rfl

/-- The terminal's success flags are never modified by a resize cycle. -/
lemma handleResize_term_flags (d : Dialog) (w h : Int) :
    (d.handleResize w h).dialog.term.resizeOk = d.term.resizeOk ∧
    (d.handleResize w h).dialog.term.startOk = d.term.startOk := by
  rw [handleResize_eq]
  split_ifs <;> exact ⟨rfl, rfl⟩

/-- Once the terminal is started it stays started, and when `Start`
always succeeds, a not-yet-started terminal is started by the cycle. -/
lemma handleResize_started_after (d : Dialog) (w h : Int) :
    (d.term.started = true → (d.handleResize w h).dialog.term.started = true) ∧
    (d.term.startOk = true → d.term.resizeOk = true →
      (d.handleResize w h).dialog.term.started = true) := by
  rw [handleResize_eq]
  split_ifs with h1 h2 h3 h4 <;>
    simp only [resizeGeometry_term] <;>
    constructor <;> intro hs <;> first
      | rfl
      | (intro hr; simp_all)
      | simp_all

lemma processResizes_started_count (evs : List (Int × Int)) :
    ∀ d : Dialog, d.term.started = true →
      (processResizes d evs).2.count TermCall.start = 0 := by
  induction evs with
  | nil => intro d _; simp [processResizes]
  | cons e rest ih =>
    obtain ⟨w, h⟩ := e
    intro d hs
    have hterm := handleResize_started_term d w h hs
    simp only [processResizes, List.count_append]
    rw [handleResize_started_calls d w h hs, ih _ (by rw [hterm]; exact hs)]
    simp

/-- One resize cycle spends at most the remaining "start budget": when
`Start` always succeeds, the number of `start` calls issued plus the
budget left afterwards is bounded by the budget before. -/
lemma handleResize_count_start (d : Dialog) (w h : Int)
    (hok : d.term.startOk = true) :
    (d.handleResize w h).calls.count TermCall.start +
      (if (d.handleResize w h).dialog.term.started then 0 else 1) ≤
    (if d.term.started then 0 else 1) := by
  rw [handleResize_eq]
  split_ifs with h1 h2 h3 h4 <;>
    simp_all [List.count_cons, resizeGeometry_term]

lemma processResizes_count_le (evs : List (Int × Int)) :
    ∀ d : Dialog, d.term.startOk = true →
      (processResizes d evs).2.count TermCall.start ≤
        if d.term.started then 0 else 1 := by
  induction evs with
  | nil => intro d _; simp [processResizes]
  | cons e rest ih =>
    obtain ⟨w, h⟩ := e
    intro d hok
    have hstep := handleResize_count_start d w h hok
    have hrest := ih (d.handleResize w h).dialog
      (by rw [(handleResize_term_flags d w h).2]; exact hok)
    simp only [processResizes, List.count_append]
    exact le_trans (by omega) hstep

/-! ### Claims -/

/-- C1: after any `handleResize`, the inner width is at least 40, the
inner height is at least 10, and the derived terminal height equals
`max (height − 2) 5`, hence is at least 5. -/
theorem resize_minimum_geometry (d : Dialog) (w h : Int) :
    40 ≤ (d.handleResize w h).dialog.width ∧
    10 ≤ (d.handleResize w h).dialog.height ∧
    termHeightOf (d.handleResize w h).dialog =
      max ((d.handleResize w h).dialog.height - 2) 5 ∧
    5 ≤ termHeightOf (d.handleResize w h).dialog :=
  ⟨handleResize_dialog_width d w h ▸ resizeGeometry_width_ge d w h,
   handleResize_dialog_height d w h ▸ resizeGeometry_height_ge d w h,
   rfl,
   termHeightOf_ge _⟩

/-- C2: for every host width `w ≥ 0`, after `handleResize` the dialog is
fullscreen iff `w < 120`; in particular width 119 gives fullscreen and
width 120 gives windowed layout. -/
theorem fullscreen_iff_below_breakpoint (d : Dialog) (w h : Int)
    (hw : 0 ≤ w) :
    ((d.handleResize w h).dialog.fullscreen = true ↔ w < 120) ∧
    (d.handleResize 119 h).dialog.fullscreen = true ∧
    (d.handleResize 120 h).dialog.fullscreen = false := by
  refine ⟨?_, ?_, ?_⟩ <;> rw [handleResize_dialog_fullscreen] <;> simp

/-- Closed witness for C2 at host width 119. -/
theorem fullscreen_iff_below_breakpoint_witness :
    (0 : Int) ≤ 119 ∧
    (((New "t" "T" "" ⟨false, true, true, true⟩ none).handleResize 119
        40).dialog.fullscreen = true ↔ (119 : Int) < 120) :=
  ⟨by norm_num,
   (fullscreen_iff_below_breakpoint (New "t" "T" "" ⟨false, true, true, true⟩
      none) 119 40 (by norm_num)).1⟩

/-- Sample dialogs used by witnesses: an unstarted dialog whose terminal
operations succeed, a dialog whose terminal is already started, and an
unstarted dialog whose `Resize` fails. -/
def sampleDialog : Dialog :=
  New "lazygit" "Lazygit" "Starting lazygit..." ⟨false, true, true, true⟩ none

def startedDialog : Dialog :=
  New "tui_editor" "Editor" "" ⟨true, true, true, true⟩ none

def failResizeDialog : Dialog :=
  New "t" "T" "" ⟨false, false, true, true⟩ none

/-- C3: with a terminal whose `Start` succeeds, at most one `start` call
is issued over any sequence of resize events; and once the terminal
reports started, a resize cycle issues exactly one `resize` call, never
a `start`, and no `start` appears over any subsequent event sequence. -/
theorem start_at_most_once (d dS : Dialog) (w h : Int)
    (evs evsS : List (Int × Int))
    (hok : d.term.startOk = true) (hs : dS.term.started = true) :
    (processResizes d evs).2.count TermCall.start ≤ 1 ∧
    (dS.handleResize w h).calls =
      [.resize (dS.resizeGeometry w h).width
         (termHeightOf (dS.resizeGeometry w h))] ∧
    TermCall.start ∉ (dS.handleResize w h).calls ∧
    (processResizes dS evsS).2.count TermCall.start = 0 := by
  refine ⟨le_trans (processResizes_count_le evs d hok) (by split_ifs <;> norm_num),
    handleResize_started_calls dS w h hs, ?_,
    processResizes_started_count evsS dS hs⟩
  rw [handleResize_started_calls dS w h hs]
  simp

/-- Closed witness for C3: a fresh dialog over two resize events makes at
most one start call; a started dialog resized at 130×40 issues only the
resize call, and none of three further events starts it again. -/
theorem start_at_most_once_witness :
    sampleDialog.term.startOk = true ∧
    startedDialog.term.started = true ∧
    ((processResizes sampleDialog [(119, 30), (130, 40)]).2.count
        TermCall.start ≤ 1 ∧
      (startedDialog.handleResize 130 40).calls =
        [.resize (startedDialog.resizeGeometry 130 40).width
           (termHeightOf (startedDialog.resizeGeometry 130 40))] ∧
      TermCall.start ∉ (startedDialog.handleResize 130 40).calls ∧
      (processResizes startedDialog
          [(200, 60), (200, 60), (90, 20)]).2.count TermCall.start = 0) :=
  ⟨rfl, rfl,
   start_at_most_once sampleDialog startedDialog 130 40
     [(119, 30), (130, 40)] [(200, 60), (200, 60), (90, 20)] rfl rfl⟩

/-- C4: on a first resize with the terminal unstarted, a `Resize` failure
returns exactly the error-report command and no `start` call is made; a
`Start` failure (after a successful `Resize`) also returns exactly the
error-report command; only when both succeed is the batch of the
wait-for-exit and refresh tasks returned. -/
theorem first_resize_error_handling (d : Dialog) (w h : Int)
    (hs : d.term.started = false) :
    (d.term.resizeOk = false →
        (d.handleResize w h).cmd = some Cmd.reportError ∧
        TermCall.start ∉ (d.handleResize w h).calls) ∧
    (d.term.resizeOk = true → d.term.startOk = false →
        (d.handleResize w h).cmd = some Cmd.reportError) ∧
    (d.term.resizeOk = true → d.term.startOk = true →
        (d.handleResize w h).cmd =
          some (Cmd.batch Cmd.waitCmd Cmd.refreshCmd)) := by
  rw [handleResize_eq, if_pos hs]
  refine ⟨fun hr => ?_, fun hr hst => ?_, fun hr hst => ?_⟩
  · rw [if_pos hr]
    simp
  · rw [if_neg (by simp [hr]), if_pos hst]
  · rw [if_neg (by simp [hr]), if_neg (by simp [hst])]

/-- Closed witness for C4: a dialog whose terminal `Resize` fails gets
exactly the error report and no start call at host bounds 100×30. -/
theorem first_resize_error_handling_witness :
    failResizeDialog.term.started = false ∧
    failResizeDialog.term.resizeOk = false ∧
    ((failResizeDialog.handleResize 100 30).cmd = some Cmd.reportError ∧
      TermCall.start ∉ (failResizeDialog.handleResize 100 30).calls) :=
  ⟨rfl, rfl, (first_resize_error_handling failResizeDialog 100 30 rfl).1 rfl⟩

/-- C10: for every host size, including zero and negative bounds, the
guard of the start branch is satisfied (the 40×10 floor and the
terminal-height floor of 5 make both dimensions positive), so an
unstarted terminal is always resized, and started whenever the resize
succeeded. -/
theorem first_resize_always_enters_start_branch (d : Dialog) (w h : Int)
    (hs : d.term.started = false) :
    0 < (d.handleResize w h).dialog.width ∧
    0 < termHeightOf (d.handleResize w h).dialog ∧
    TermCall.resize (d.resizeGeometry w h).width
        (termHeightOf (d.resizeGeometry w h)) ∈ (d.handleResize w h).calls ∧
    (d.term.resizeOk = true →
        TermCall.start ∈ (d.handleResize w h).calls) := by
  refine ⟨?_, termHeightOf_pos _, ?_, fun hr => ?_⟩
  · rw [handleResize_dialog_width]
    exact resizeGeometry_width_pos d w h
  · rw [handleResize_eq, if_pos hs]
    split_ifs <;> simp
  · rw [handleResize_eq, if_pos hs, if_neg (by simp [hr])]
    split_ifs <;> simp

/-- Closed witness for C10 at the degenerate host bounds −5×0. -/
theorem first_resize_always_enters_start_branch_witness :
    sampleDialog.term.started = false ∧
    (0 < (sampleDialog.handleResize (-5) 0).dialog.width ∧
      0 < termHeightOf (sampleDialog.handleResize (-5) 0).dialog ∧
      TermCall.resize (sampleDialog.resizeGeometry (-5) 0).width
          (termHeightOf (sampleDialog.resizeGeometry (-5) 0)) ∈
        (sampleDialog.handleResize (-5) 0).calls ∧
      (sampleDialog.term.resizeOk = true →
          TermCall.start ∈ (sampleDialog.handleResize (-5) 0).calls)) :=
  ⟨rfl, first_resize_always_enters_start_branch sampleDialog (-5) 0 rfl⟩

/-- A dialog whose completion callback yields a follow-up command. -/
def callbackDialog : Dialog :=
  New "tui_editor" "Editor" "" ⟨true, true, true, true⟩
    (some fun _ => some (Cmd.follow 7))

/-- C5: `Close` always issues exactly the terminal `close` call, its
result does not depend on whether the terminal's `Close` succeeds, and
the returned follow-up command is the completion callback's result when
one was supplied, `none` otherwise. -/
theorem close_protocol (d : Dialog) :
    (d.Close).calls = [TermCall.close] ∧
    (∀ b : Bool,
      ({ d with term := { d.term with closeOk := b } } : Dialog).Close =
        d.Close) ∧
    (∀ f, d.onClose = some f → (d.Close).cmd = f ()) ∧
    (d.onClose = none → (d.Close).cmd = none) := by
  refine ⟨rfl, fun b => rfl, fun f hf => ?_, fun hf => ?_⟩ <;>
    simp [Dialog.Close, hf]

/-- Closed witness for C5: a supplied callback's command is returned, no
callback returns `none`, and the terminal `close` call is always made. -/
theorem close_protocol_witness :
    callbackDialog.onClose ≠ none ∧
    (callbackDialog.Close).calls = [TermCall.close] ∧
    (callbackDialog.Close).cmd = some (Cmd.follow 7) ∧
    sampleDialog.onClose = none ∧
    (sampleDialog.Close).cmd = none :=
  ⟨by simp [callbackDialog, New],
   (close_protocol callbackDialog).1,
   (close_protocol callbackDialog).2.2.1 _ rfl,
   rfl,
   (close_protocol sampleDialog).2.2.2 rfl⟩

/-- C6: the mouse-coordinate adjustment and the cursor screen mapping of
the same dialog are exact mutual inverses. -/
theorem mouse_cursor_inverse (d : Dialog) (x y : Int) :
    d.cursorScreen (d.adjustMouse x y).1 (d.adjustMouse x y).2 = (x, y) ∧
    d.adjustMouse (d.cursorScreen x y).1 (d.cursorScreen x y).2 = (x, y) := by
  constructor <;>
  · simp only [Dialog.adjustMouse, Dialog.cursorScreen, Prod.mk.injEq,
      headerHeight]
    constructor <;> ring

/-- C7: `Position` is `(0, 0)` in fullscreen mode, otherwise the
centered, zero-clamped row and column, and both coordinates are always
non-negative. -/
theorem position_centered_nonneg (d : Dialog) :
    d.Position =
      (if d.fullscreen then 0
       else max ((d.wHeight - (d.height + 2)).tdiv 2) 0,
       if d.fullscreen then 0
       else max ((d.wWidth - (d.width + 2)).tdiv 2) 0) ∧
    0 ≤ d.Position.1 ∧ 0 ≤ d.Position.2 := by
  unfold Dialog.Position
  split_ifs <;> simp [le_max_right]

lemma handleResize_dialog_wWidth (d : Dialog) (w h : Int) :
    (d.handleResize w h).dialog.wWidth = w := by
  rw [handleResize_eq]
  split_ifs <;> rfl

lemma handleResize_dialog_wHeight (d : Dialog) (w h : Int) :
    (d.handleResize w h).dialog.wHeight = h := by
  rw [handleResize_eq]
  split_ifs <;> rfl

lemma resizeGeometry_width_windowed (d : Dialog) (w h : Int)
    (hw : ¬ w < 120) :
    (d.resizeGeometry w h).width =
      max ((if pct85 w > w - 6 then w - 6 else pct85 w) - 2) 40 := by
  simp [Dialog.resizeGeometry, fullscreenWidthBreakpoint, hw]

lemma resizeGeometry_height_windowed (d : Dialog) (w h : Int)
    (hw : ¬ w < 120) :
    (d.resizeGeometry w h).height =
      max ((if pct85 h > h - 4 then h - 4 else pct85 h) - 2) 10 := by
  simp [Dialog.resizeGeometry, fullscreenWidthBreakpoint, hw]

/-- C8 counterexample: at windowed host bounds 120×15 the outer height
(inner height plus the 2-cell border) is 12, which exceeds
hostHeight − 4 = 11: the 10-row inner floor overrides the cap. -/
theorem windowed_outer_bound_counterexample :
    (120 : Int) ≤ 120 ∧
    (sampleDialog.handleResize 120 15).dialog.fullscreen = false ∧
    (sampleDialog.handleResize 120 15).dialog.height + 2 > 15 - 4 := by
  refine ⟨by norm_num, ?_, ?_⟩ <;> decide

/-- C8 amended: in windowed mode (host width ≥ 120) the outer width
never exceeds hostWidth − 6 for every host height; the outer height
never exceeds hostHeight − 4 provided hostHeight ≥ 16 (for smaller
heights the 10-row inner floor can push the outer height above the
cap). -/
theorem windowed_outer_bound (d : Dialog) (w h : Int)
    (hw : 120 ≤ w) :
    (d.handleResize w h).dialog.fullscreen = false ∧
    (d.handleResize w h).dialog.width + 2 ≤ w - 6 ∧
    (16 ≤ h → (d.handleResize w h).dialog.height + 2 ≤ h - 4) := by
  have hw' : ¬ w < 120 := not_lt.mpr hw
  rw [handleResize_dialog_width, handleResize_dialog_height,
    handleResize_dialog_fullscreen, resizeGeometry_width_windowed d w h hw',
    resizeGeometry_height_windowed d w h hw']
  refine ⟨by simpa using hw', ?_, fun hh => ?_⟩ <;> split_ifs <;> omega

/-- Closed witness for C8: the width bound at the short host bounds
120×15 (below the height proviso), and both bounds at 120×16. -/
theorem windowed_outer_bound_witness :
    (120 : Int) ≤ 120 ∧ (16 : Int) ≤ 16 ∧
    (startedDialog.handleResize 120 15).dialog.width + 2 ≤ 120 - 6 ∧
    ((startedDialog.handleResize 120 16).dialog.fullscreen = false ∧
      (startedDialog.handleResize 120 16).dialog.width + 2 ≤ 120 - 6 ∧
      (startedDialog.handleResize 120 16).dialog.height + 2 ≤ 16 - 4) :=
  ⟨by norm_num, by norm_num,
   (windowed_outer_bound startedDialog 120 15 (by norm_num)).2.1,
   (windowed_outer_bound startedDialog 120 16 (by norm_num)).1,
   (windowed_outer_bound startedDialog 120 16 (by norm_num)).2.1,
   (windowed_outer_bound startedDialog 120 16 (by norm_num)).2.2 (by norm_num)⟩

/-- C9 counterexample: for host bounds 200×60 the inner height after the
resize is 49, not 47, and the centered row is 4, not 5 — the claimed
example subtracted the header band from the inner height and centered
the wrong box. -/
theorem host_200x60_example_counterexample :
    (sampleDialog.handleResize 200 60).dialog.height = 49 ∧
    (sampleDialog.handleResize 200 60).dialog.height ≠ 47 ∧
    ((sampleDialog.handleResize 200 60).dialog.Position).1 = 4 ∧
    ((sampleDialog.handleResize 200 60).dialog.Position).1 ≠ 5 := by
  refine ⟨?_, ?_, ?_, ?_⟩ <;> decide

/-- C9 amended: for host bounds 200×60 the dialog is windowed with inner
size 168×49 (85% rule, caps, and border subtraction; the terminal band
below the header is 47 rows), and `Position` returns row 4, column 15. -/
theorem host_200x60_example (d : Dialog) :
    (d.handleResize 200 60).dialog.fullscreen = false ∧
    (d.handleResize 200 60).dialog.width = 168 ∧
    (d.handleResize 200 60).dialog.height = 49 ∧
    termHeightOf (d.handleResize 200 60).dialog = 47 ∧
    (d.handleResize 200 60).dialog.Position = (4, 15) := by
  have hfs : (d.handleResize 200 60).dialog.fullscreen = false := by
    rw [handleResize_dialog_fullscreen]; decide
  have hwidth : (d.handleResize 200 60).dialog.width = 168 := by
    rw [handleResize_dialog_width,
      resizeGeometry_width_windowed d 200 60 (by norm_num)]
    decide
  have hheight : (d.handleResize 200 60).dialog.height = 49 := by
    rw [handleResize_dialog_height,
      resizeGeometry_height_windowed d 200 60 (by norm_num)]
    decide
  refine ⟨hfs, hwidth, hheight, ?_, ?_⟩
  · rw [termHeightOf, hheight]; decide
  · unfold Dialog.Position
    rw [hfs, hwidth, hheight, handleResize_dialog_wWidth,
      handleResize_dialog_wHeight]
    decide
